import Mathlib

set_option autoImplicit false

namespace LendingApi

/-!
Shallow embedding of the periodic price-feed and liquidation maintenance
subsystem of the lending-api repository, i.e. of
`src/utils/pricefeed_task.py` and `src/utils/liquidate_task.py`.

External effects (HTTP rate APIs, the JSON-RPC chain endpoint, the wallet
config file) are modelled by explicit outcome parameters supplied to each
function; the Python control flow over those outcomes is translated
directly.  Python `int`/`float` arithmetic is modelled over `ℤ`/`ℚ`
(exact rationals); `int(x)` on the nonnegative values arising here is the
floor.
-/

/-- Result of one external chain (RPC) operation as observed by the caller:
a returned value, an `asyncio.TimeoutError` raised by the wrapping
`asyncio.wait_for`, or any other raised exception. -/
inductive OpResult (α : Type) where
  | ok (a : α)
  | timeout
  | err
  deriving DecidableEq, Repr

/-- Responses of the chain endpoint to the five RPC interactions performed by
`update_blockchain_price` (`src/utils/pricefeed_task.py`, lines 105-193),
in source order: `get_transaction_count`, `estimate_gas`, `gas_price`,
`send_raw_transaction`, `wait_for_transaction_receipt`. -/
structure ChainEnv where
  nonce : OpResult ℕ
  estimate_gas : OpResult ℕ
  gas_price : OpResult ℕ
  send : OpResult ℕ
  receipt : OpResult ℕ
  deriving DecidableEq, Repr

/-- The fields of the transaction dict passed to `build_transaction` that the
code computes (the `from` address and call data are fixed per call). -/
structure BuiltTx where
  nonce : ℕ
  gas : ℕ
  gasPrice : ℕ
  deriving DecidableEq, Repr

/-- Observable outcome of one `update_blockchain_price` call: the returned
boolean, the transaction that was built (if control reached
`build_transaction`), and whether `send_raw_transaction` was invoked. -/
structure UpdateResult where
  success : Bool
  tx : Option BuiltTx
  sendAttempted : Bool
  deriving DecidableEq, Repr

/-- Embedding of `update_blockchain_price` (`src/utils/pricefeed_task.py`,
lines 105-193).  Control flow over the supplied chain responses:

* nonce timeout, or any exception outside the inner handlers, returns
  `False` (lines 124-130 and 191-193);
* gas estimation: `asyncio.TimeoutError` returns `False` (lines 141-143);
  any other exception falls back to `gas_limit = 200000` (lines 144-147);
  success sets `gas_limit = int(estimated_gas * 1.2)` (line 140), modelled
  exactly as `12 * g / 10`;
* `rate = none` models the unchecked `eth_rate is None` case: encoding
  `updateAnswer(None)` raises before the chain is consulted, so gas
  estimation takes the fallback branch and `build_transaction` raises into
  the outer handler (returns `False`, nothing sent);
* gas price timeout returns `False` (lines 150-157);
* send timeout returns `False`, though the request was issued (lines
  169-176); any other send exception reaches the outer handler;
* receipt: success returns `True`; `asyncio.TimeoutError` of the 150s
  wrapper returns `True` ("sent but not confirmed yet", lines 186-189);
  any other exception (e.g. web3's own 120s `TimeExhausted`) reaches the
  outer handler and returns `False`. -/
def update_blockchain_price (rate : Option ℤ) (env : ChainEnv) : UpdateResult :=
  match env.nonce with
  | .ok n =>
    let gasRes : Option ℕ :=
      match rate, env.estimate_gas with
      | none, _ => some 200000
      | some _, .ok g => some (12 * g / 10)
      | some _, .err => some 200000
      | some _, .timeout => none
    match gasRes with
    | none => ⟨false, none, false⟩
    | some gasLimit =>
      match env.gas_price with
      | .ok gp =>
        match rate with
        | none => ⟨false, none, false⟩
        | some _ =>
          let tx : BuiltTx := ⟨n, gasLimit, gp⟩
          match env.send with
          | .ok _ =>
            match env.receipt with
            | .ok _ => ⟨true, some tx, true⟩
            | .timeout => ⟨true, some tx, true⟩
            | .err => ⟨false, some tx, true⟩
          | .timeout => ⟨false, some tx, true⟩
          | .err => ⟨false, some tx, true⟩
      | .timeout => ⟨false, none, false⟩
      | .err => ⟨false, none, false⟩
  | .timeout => ⟨false, none, false⟩
  | .err => ⟨false, none, false⟩

/-- Round to the nearest integer with ties to even, the rounding used by IEEE
754 arithmetic, expressed on the exact rational value. -/
def rnEven (x : ℚ) : ℤ :=
  if x - (⌊x⌋ : ℚ) < 1/2 then ⌊x⌋
  else if (1/2 : ℚ) < x - (⌊x⌋ : ℚ) then ⌊x⌋ + 1
  else if ⌊x⌋ % 2 = 0 then ⌊x⌋ else ⌊x⌋ + 1

/-- IEEE 754 binary64 rounding (the semantics of a Python `float` operation)
of a positive rational: with `e` the binade exponent (`2^e ≤ q < 2^(e+1)`,
via `Int.log`), the 53-bit significand `q / 2^(e-52)` is rounded to
nearest, ties to even.  Valid on the normal range — no subnormal or
overflow handling — which covers every value arising in the oracle
computations modelled here. -/
def fp64 (q : ℚ) : ℚ :=
  (rnEven (q / (2:ℚ) ^ (Int.log 2 q - 52)) : ℚ) * (2:ℚ) ^ (Int.log 2 q - 52)

/-- Python `int()` applied to a float value: truncation toward zero. -/
def pyInt (x : ℚ) : ℤ :=
  if x < 0 then ⌈x⌉ else ⌊x⌋

/-- Numeric core of `get_idr_to_usd` (`src/utils/pricefeed_task.py`, line 56):
`int(1e8 * (1 / rate))` in float arithmetic, applied to the USD→IDR rate
whose decimal value is `rate` (parsed by the JSON decoder into the nearest
double, then inverted and scaled by the exact constant 1e8, each operation
correctly rounded). -/
def get_idr_to_usd (rate : ℚ) : ℤ :=
  pyInt (fp64 (100000000 * fp64 (1 / fp64 rate)))

/-- Numeric core of `get_btc_to_usd` (`src/utils/pricefeed_task.py`, lines
76-77): `price_usd = float(...)` followed by
`int(math.ceil(price_usd * 10) / 10 * 1e8)`, in float arithmetic.  The
stages: the decimal `price_usd` is parsed to the nearest double; the
product with 10 is a rounded float multiply; `math.ceil` on a float is
exact and yields an int; the int `/ 10` is Python true division, a
correctly rounded float; the multiply by the exactly representable 1e8 is
again a rounded float operation; `int()` truncates. -/
def get_btc_to_usd (price_usd : ℚ) : ℤ :=
  pyInt (fp64 (fp64 ((⌈fp64 (fp64 price_usd * 10)⌉ : ℚ) / 10) * 100000000))

/-- Numeric core of `get_eth_to_usd` (`src/utils/pricefeed_task.py`, lines
96-97): same formula as the BTC path. -/
def get_eth_to_usd (price_usd : ℚ) : ℤ :=
  pyInt (fp64 (fp64 ((⌈fp64 (fp64 price_usd * 10)⌉ : ℚ) / 10) * 100000000))

/-- Outcomes of the three oracle fetches of one `update_price_task` cycle
(`src/utils/pricefeed_task.py`, lines 207-209): `none` is a fetch that
returned `None`. -/
structure RateEnv where
  idr : Option ℤ
  btc : Option ℤ
  eth : Option ℤ
  deriving DecidableEq, Repr

/-- Python truthiness test on an `int | None` rate: `not x` holds for `None`
and for `0` (line 212 tests `not idr_rate or not btc_rate`). -/
def falsy : Option ℤ → Bool
  | none => true
  | some z => z == 0

/-- One entry of the `contract_addresses` list (lines 217-226). -/
structure Target where
  symbol : String
  address : String
  rate : Option ℤ
  deriving DecidableEq, Repr

/-- The `contract_addresses` list built at lines 217-226; the ETH rate is
inserted unchecked (it may be `None`), USDT is the constant 100000000. -/
def contract_addresses (env : RateEnv) : List Target :=
  [⟨"IDRX", "0x14fa23def3832dd489f08d7ad618928b3b237cb8", env.idr⟩,
   ⟨"BTC", "0xF4Dd86C807D2D14cFbc366371D852aA14fFE1661", env.btc⟩,
   ⟨"ETH", "0x9A3C4F432B698b0026fA85bE44BD6d94426959B9", env.eth⟩,
   ⟨"USDT", "0x900c82d4d336b036c614f55b921de25c3bdd88e4", some 100000000⟩]

/-- Observable events of one price-update cycle: an `update_blockchain_price`
invocation for a target (with the rate passed and the boolean it returned),
an `asyncio.sleep`, or the task-level exception handler logging an error. -/
inductive Event where
  | attempt (symbol : String) (rate : Option ℤ) (success : Bool)
  | sleep (seconds : ℕ)
  | logError
  deriving DecidableEq, Repr

/-- The per-target body of the loop at lines 231-254: one attempt; on failure
sleep 2s and retry exactly once; then sleep 2s unconditionally.  `env1` and
`env2` are the chain responses seen by the first and second attempt. -/
def process_target (t : Target) (env1 env2 : ChainEnv) : List Event :=
  if (update_blockchain_price t.rate env1).success then
    [.attempt t.symbol t.rate true, .sleep 2]
  else
    [.attempt t.symbol t.rate false, .sleep 2,
     .attempt t.symbol t.rate (update_blockchain_price t.rate env2).success,
     .sleep 2]

/-- The `for contract in contract_addresses` loop (lines 231-254); `i` counts
targets so that each attempt sees its own chain responses `chain i 0` /
`chain i 1`. -/
def run_targets (chain : ℕ → ℕ → ChainEnv) : ℕ → List Target → List Event
  | _, [] => []
  | i, t :: ts => process_target t (chain i 0) (chain i 1) ++ run_targets chain (i + 1) ts

/-- Embedding of `update_price_task` (`src/utils/pricefeed_task.py`, lines
196-257).  `wallets` is the outcome of `load_wallet_config` followed by
`wallets[0].get('private_key')`: `none` when loading raised, `some none`
when the key was absent (the raised `ValueError`); both are caught by the
task-level handler (lines 256-257), which logs and returns.  When the IDR
or BTC rate is falsy the task prints and returns with no attempts (lines
212-214); otherwise every target in the list is processed. -/
def update_price_task (wallets : Option (Option String)) (env : RateEnv)
    (chain : ℕ → ℕ → ChainEnv) : List Event :=
  match wallets with
  | none => [.logError]
  | some none => [.logError]
  | some (some _) =>
    if falsy env.idr || falsy env.btc then []
    else run_targets chain 0 (contract_addresses env)

/-- Number of update attempts for a given feed symbol in a cycle trace. -/
def attemptsFor (sym : String) (evs : List Event) : ℕ :=
  (evs.filter fun e => match e with
    | .attempt s _ _ => s == sym
    | _ => false).length

/-- Total number of update attempts in a cycle trace. -/
def attemptCount (evs : List Event) : ℕ :=
  (evs.filter fun e => match e with
    | .attempt _ _ _ => true
    | _ => false).length

/-- Number of successful submissions in a cycle trace. -/
def successCount (evs : List Event) : ℕ :=
  (evs.filter fun e => match e with
    | .attempt _ _ true => true
    | _ => false).length

/-- A chain endpoint that answers every request. -/
def allOk : ChainEnv :=
  ⟨.ok 7, .ok 100000, .ok 5, .ok 1, .ok 1⟩

/-- Observable events of a periodic scheduler loop, parametric in the cycle's
own event type: a cycle that ran to completion (with its events), a cycle
abandoned by the `asyncio.wait_for` timeout, or the `asyncio.sleep` between
cycles. -/
inductive LoopEvent (ε : Type) where
  | cycle (evs : List ε)
  | cycleTimeout
  | sleepInterval (seconds : ℕ)
  deriving DecidableEq, Repr

/-- A loop event that represents a cycle invocation (completed or abandoned). -/
def isRunEvent {ε : Type} : LoopEvent ε → Bool
  | .cycle _ => true
  | .cycleTimeout => true
  | .sleepInterval _ => false

/-- Number of cycle invocations in a loop trace. -/
def runCount {ε : Type} (t : List (LoopEvent ε)) : ℕ :=
  (t.filter isRunEvent).length

/-- Update attempts contributed by one loop event. -/
def cycleAttempts : LoopEvent Event → ℕ
  | .cycle evs => attemptCount evs
  | _ => 0

/-- Total update attempts across a price-update loop trace. -/
def traceAttempts (t : List (LoopEvent Event)) : ℕ :=
  (t.map cycleAttempts).sum

/-- One iteration of the `while True` loop of `start_periodic_updates`
(`src/utils/pricefeed_task.py`, lines 280-290): the cycle runs under
`asyncio.wait_for(..., timeout=300)`; exceeding it (here: the cycle's wall
time `duration i` exceeding 300) is caught as `asyncio.TimeoutError`, any
other exception is caught as well, and the loop always sleeps
`interval_seconds` afterwards. -/
def loop_iteration (interval : ℕ) (wallets : ℕ → Option (Option String))
    (rates : ℕ → RateEnv) (chain : ℕ → ℕ → ℕ → ChainEnv) (duration : ℕ → ℕ)
    (i : ℕ) : List (LoopEvent Event) :=
  [if 300 < duration i then .cycleTimeout
   else .cycle (update_price_task (wallets i) (rates i) (chain i)),
   .sleepInterval interval]

/-- Trace of the first `n` iterations of `start_periodic_updates`
(`src/utils/pricefeed_task.py`, lines 278-290); iteration `i` sees the
external outcomes indexed by `i`. -/
def start_periodic_updates (interval : ℕ) (wallets : ℕ → Option (Option String))
    (rates : ℕ → RateEnv) (chain : ℕ → ℕ → ℕ → ChainEnv) (duration : ℕ → ℕ) :
    ℕ → List (LoopEvent Event)
  | 0 => []
  | n + 1 =>
    start_periodic_updates interval wallets rates chain duration n ++
      loop_iteration interval wallets rates chain duration n

/-- Responses of the chain endpoint to the four RPC interactions of
`perform_liquidation` (`src/utils/liquidate_task.py`, lines 83-111), in
source order: `estimate_gas`, `get_transaction_count`,
`send_raw_transaction`, `wait_for_transaction_receipt`.  These calls have
no individual timeout wrapper; `none` is any raised exception, all caught
by the function's single handler. -/
structure LiqEnv where
  estimate_gas : Option ℕ
  nonce : Option ℕ
  send : Option ℕ
  receipt : Option ℕ
  deriving DecidableEq, Repr

/-- Outcome of one `perform_liquidation` call: the returned boolean and the
transaction built (if control reached `build_transaction`). -/
structure LiqResult where
  success : Bool
  tx : Option BuiltTx
  deriving DecidableEq, Repr

/-- Embedding of `perform_liquidation` (`src/utils/liquidate_task.py`, lines
83-111).  Gas limit is `int(estimated_gas * 1.1)` (line 90), modelled
exactly as `11 * g / 10`; the gas price is the fixed
`web3.to_wei('20', 'gwei') = 20000000000` (line 97).  Any exception in any
step returns `False` (lines 109-111). -/
def perform_liquidation (_user _token : String) (env : LiqEnv) : LiqResult :=
  match env.estimate_gas with
  | none => ⟨false, none⟩
  | some g =>
    match env.nonce with
    | none => ⟨false, none⟩
    | some n =>
      let tx : BuiltTx := ⟨n, 11 * g / 10, 20000000000⟩
      match env.send with
      | none => ⟨false, some tx⟩
      | some _ =>
        match env.receipt with
        | none => ⟨false, some tx⟩
        | some _ => ⟨true, some tx⟩

/-- Embedding of `get_active_loan_users` (`src/utils/liquidate_task.py`, lines
59-80).  `scan` is the outcome of `get_logs`: `none` when the scan raised
(the handler returns `[]`, lines 78-80), otherwise the list of borrower
addresses decoded from the `Borrowed` logs in order; the Python `set`
collapses duplicates, modelled by `List.dedup`. -/
def get_active_loan_users (scan : Option (List String)) : List String :=
  match scan with
  | none => []
  | some logs => logs.dedup

/-- Observable event of one liquidation cycle: a `perform_liquidation`
invocation for a (user, token) pair and the boolean it returned. -/
inductive LiqEvent where
  | attempt (user token : String) (success : Bool)
  deriving DecidableEq, Repr

/-- Embedding of `liquidate_task` (`src/utils/liquidate_task.py`, lines
114-164).  `wallets` is as in `update_price_task`; `collaterals` is the
outcome of the `getCollateralTokens` contract read (`none` when it raised,
reaching the task-level handler); `scan` feeds `get_active_loan_users`.
The nested loops at lines 150-161 attempt every (user, token) pair in
order, ignoring the returned boolean. -/
def liquidate_task (wallets : Option (Option String))
    (collaterals : Option (List String)) (scan : Option (List String))
    (env : String → String → LiqEnv) : List LiqEvent :=
  match wallets with
  | none => []
  | some none => []
  | some (some _) =>
    match collaterals with
    | none => []
    | some toks =>
      (get_active_loan_users scan).flatMap fun u =>
        toks.map fun t => .attempt u t (perform_liquidation u t (env u t)).success

/-- Number of liquidation attempts for one (user, token) pair in a trace. -/
def liqAttemptsFor (u t : String) (evs : List LiqEvent) : ℕ :=
  (evs.filter fun e => match e with
    | .attempt u' t' _ => u' == u && t' == t).length

/-- Trace of the first `n` iterations of `start_periodic_liquidations`
(`src/utils/liquidate_task.py`, lines 173-177): the cycle is awaited with
no timeout wrapper (the task catches its own exceptions), then the loop
sleeps `interval_seconds`. -/
def start_periodic_liquidations (interval : ℕ)
    (wallets : ℕ → Option (Option String)) (colls : ℕ → Option (List String))
    (scans : ℕ → Option (List String)) (envs : ℕ → String → String → LiqEnv) :
    ℕ → List (LoopEvent LiqEvent)
  | 0 => []
  | n + 1 =>
    start_periodic_liquidations interval wallets colls scans envs n ++
      [.cycle (liquidate_task (wallets n) (colls n) (scans n) (envs n)),
       .sleepInterval interval]

/-! ### Counting lemmas -/

theorem attemptsFor_append (s : String) (l1 l2 : List Event) :
    attemptsFor s (l1 ++ l2) = attemptsFor s l1 + attemptsFor s l2 := by
  simp [attemptsFor, List.filter_append]

theorem attemptsFor_process_target (s : String) (t : Target) (e1 e2 : ChainEnv) :
    attemptsFor s (process_target t e1 e2) =
      if t.symbol = s then
        (if (update_blockchain_price t.rate e1).success then 1 else 2)
      else 0 := by
  by_cases h : t.symbol = s <;>
    cases hs : (update_blockchain_price t.rate e1).success <;>
      simp [process_target, attemptsFor, h, hs, beq_iff_eq]

theorem runCount_append {ε : Type} (a b : List (LoopEvent ε)) :
    runCount (a ++ b) = runCount a + runCount b := by
  simp [runCount, List.filter_append]

theorem traceAttempts_append (a b : List (LoopEvent Event)) :
    traceAttempts (a ++ b) = traceAttempts a + traceAttempts b := by
  simp [traceAttempts]

theorem liqAttemptsFor_append (u t : String) (l1 l2 : List LiqEvent) :
    liqAttemptsFor u t (l1 ++ l2) = liqAttemptsFor u t l1 + liqAttemptsFor u t l2 := by
  simp [liqAttemptsFor, List.filter_append]

theorem liqAttemptsFor_map (u t u' : String) (toks : List String) (f : String → Bool) :
    liqAttemptsFor u t (toks.map fun t' => .attempt u' t' (f t')) =
      if u' = u then toks.count t else 0 := by
  induction toks with
  | nil => simp [liqAttemptsFor]
  | cons hd tl ih =>
    by_cases h : u' = u <;> by_cases h2 : hd = t <;>
      simp [liqAttemptsFor, List.count_cons, List.filter_cons, h, h2, beq_iff_eq] at ih ⊢ <;>
      omega

theorem liqAttemptsFor_flatMap (u t : String) (users toks : List String)
    (g : String → String → Bool) :
    liqAttemptsFor u t
        (users.flatMap fun u' => toks.map fun t' => .attempt u' t' (g u' t')) =
      users.count u * toks.count t := by
  induction users with
  | nil => simp [liqAttemptsFor]
  | cons hd tl ih =>
    rw [List.flatMap_cons, liqAttemptsFor_append, ih, liqAttemptsFor_map, List.count_cons]
    by_cases h : hd = u <;> simp [h, beq_iff_eq] <;> ring

theorem sum_map_length_const {α : Type} (l : List α) (k : ℕ) :
    (l.map fun _ => k).sum = l.length * k := by
  induction l with
  | nil => simp
  | cons a tl ih => simp [ih, Nat.succ_mul, Nat.add_comm]

theorem rnEven_eq_of_lt (x : ℚ) (f : ℤ) (hfl : ⌊x⌋ = f) (hr : x - (f : ℚ) < 1/2) :
    rnEven x = f := by
  unfold rnEven
  rw [hfl, if_pos hr]

theorem rnEven_eq_of_tie_even (x : ℚ) (f : ℤ) (hfl : ⌊x⌋ = f) (hr : x - (f : ℚ) = 1/2)
    (he : f % 2 = 0) : rnEven x = f := by
  unfold rnEven
  rw [hfl, hr, if_neg (by norm_num), if_neg (by norm_num), if_pos he]

theorem fp64_eq (q : ℚ) (e m : ℤ) (h1 : (2:ℚ) ^ e ≤ q) (h2 : q < (2:ℚ) ^ (e + 1))
    (hm : rnEven (q * (2:ℚ) ^ (52 - e)) = m) :
    fp64 q = (m : ℚ) * (2:ℚ) ^ (e - 52) := by
  have hq : 0 < q := lt_of_lt_of_le (by positivity) h1
  have hb2 : ((2:ℕ):ℚ) = (2:ℚ) := by norm_num
  have hle : e ≤ Int.log 2 q := by
    rw [← Int.zpow_le_iff_le_log one_lt_two hq, hb2]
    exact h1
  have hgt : ¬ (e + 1 ≤ Int.log 2 q) := by
    rw [← Int.zpow_le_iff_le_log one_lt_two hq, hb2]
    exact not_le.mpr h2
  have hlog : Int.log 2 q = e := by omega
  unfold fp64
  rw [hlog, show q / (2:ℚ) ^ (e - 52) = q * (2:ℚ) ^ (52 - e) from by
    rw [div_eq_mul_inv, ← zpow_neg, neg_sub], hm]

theorem fp64_parse_1234_56 :
    fp64 (123456 / 100) = 5429652300748554 / 4398046511104 := by
  have hm : rnEven ((123456/100 : ℚ) * (2:ℚ) ^ ((52:ℤ) - 10)) = 5429652300748554 := by
    rw [show ((123456:ℚ)/100) * (2:ℚ) ^ ((52:ℤ) - 10) = 135741307518713856/25 by norm_num]
    exact rnEven_eq_of_lt _ 5429652300748554
      (by rw [Int.floor_eq_iff]; norm_num) (by norm_num)
  rw [fp64_eq (123456/100) 10 5429652300748554 (by norm_num) (by norm_num) hm]
  norm_num

theorem fp64_mul_ten_1234_56 :
    fp64 (5429652300748554 / 4398046511104 * 10) = 6787065375935692 / 549755813888 := by
  have hm : rnEven ((5429652300748554 / 4398046511104 * 10 : ℚ) * (2:ℚ) ^ ((52:ℤ) - 13)) =
      6787065375935692 := by
    rw [show (5429652300748554 / 4398046511104 * 10 : ℚ) * (2:ℚ) ^ ((52:ℤ) - 13) =
      13574130751871385/2 by norm_num]
    exact rnEven_eq_of_tie_even _ 6787065375935692
      (by rw [Int.floor_eq_iff]; norm_num) (by norm_num) (by norm_num)
  rw [fp64_eq _ 13 6787065375935692 (by norm_num) (by norm_num) hm]
  norm_num

theorem ceil_12345_6_fp :
    ⌈(6787065375935692 / 549755813888 : ℚ)⌉ = (12346 : ℤ) := by
  rw [Int.ceil_eq_iff]
  norm_num

theorem fp64_div_ten_12346 :
    fp64 (((12346 : ℤ) : ℚ) / 10) = 5429828222608998 / 4398046511104 := by
  have hm : rnEven ((((12346 : ℤ) : ℚ) / 10) * (2:ℚ) ^ ((52:ℤ) - 10)) =
      5429828222608998 := by
    rw [show (((12346 : ℤ) : ℚ) / 10) * (2:ℚ) ^ ((52:ℤ) - 10) = 27149141113044992/5 by
      norm_num]
    exact rnEven_eq_of_lt _ 5429828222608998
      (by rw [Int.floor_eq_iff]; norm_num) (by norm_num)
  rw [fp64_eq _ 10 5429828222608998 (by norm_num) (by norm_num) hm]
  norm_num

theorem fp64_mul_1e8_1234_6 :
    fp64 (5429828222608998 / 4398046511104 * 100000000) = 8091074559999999 / 65536 := by
  have hm : rnEven ((5429828222608998 / 4398046511104 * 100000000 : ℚ) *
      (2:ℚ) ^ ((52:ℤ) - 36)) = 8091074559999999 := by
    rw [show (5429828222608998 / 4398046511104 * 100000000 : ℚ) * (2:ℚ) ^ ((52:ℤ) - 36) =
      2121026649456639843750/262144 by norm_num]
    exact rnEven_eq_of_lt _ 8091074559999999
      (by rw [Int.floor_eq_iff]; norm_num) (by norm_num)
  rw [fp64_eq _ 36 8091074559999999 (by norm_num) (by norm_num) hm]
  norm_num

theorem get_btc_to_usd_eval_123456 : get_btc_to_usd (123456 / 100) = 123459999999 := by
  unfold get_btc_to_usd
  rw [fp64_parse_1234_56, fp64_mul_ten_1234_56, ceil_12345_6_fp, fp64_div_ten_12346,
    fp64_mul_1e8_1234_6]
  unfold pyInt
  rw [if_neg (by norm_num), Int.floor_eq_iff]
  norm_num

/-! ### Claims -/

/-- C3 counterexample: the claim states that `ceil(price*10)/10 * 1e8` at
price 1234.56 yields exactly 123500000000.  Evaluated as the source
evaluates it — IEEE binary64 arithmetic — the result is 123459999999, so
the claimed value is false (it is also far from the exact-arithmetic value
123460000000 = 1234.6 scaled by 1e8). -/
theorem c3_btc_round_counterexample :
    get_btc_to_usd (123456 / 100) ≠ 123500000000 := by
  rw [get_btc_to_usd_eval_123456]
  decide

/-- C3 amended: the BTC/ETH oracle computation
`int(ceil(price*10)/10 * 1e8)`, in the source's IEEE binary64 float
arithmetic, yields for input price 1234.56 exactly the integer
123459999999: the double for `12346 / 10` lies just below 1234.6, the
product with 1e8 rounds to 123459999999.99998474…, and `int()` truncates —
one below the exact-arithmetic 123460000000, and not the spec's
123500000000. -/
theorem c3_btc_round :
    get_btc_to_usd (123456 / 100) = 123459999999 :=
  get_btc_to_usd_eval_123456

/-- C4 counterexample: with a gas-estimation timeout (and every other chain
operation answering), the update attempt returns failure with no
transaction built and no submission — it does not fall back to the 200000
default, contradicting the claim that estimation failure "for any reason,
including timeout" proceeds to build and submit. -/
theorem c4_counterexample :
    update_blockchain_price (some 250000000000)
        ⟨.ok 7, .timeout, .ok 5, .ok 1, .ok 1⟩ =
      ⟨false, none, false⟩ := rfl

/-- C4 amended: if gas estimation fails with a non-timeout error, the attempt
falls back to the default gas limit 200000 and proceeds to build and submit
the transaction (for every outcome of the later send/receipt steps); a
gas-estimation timeout instead aborts the attempt with failure. -/
theorem c4_gas_fallback (n gp : ℕ) (r : ℤ) (sd rc : OpResult ℕ) :
    (update_blockchain_price (some r) ⟨.ok n, .err, .ok gp, sd, rc⟩).tx =
        some ⟨n, 200000, gp⟩ ∧
    (update_blockchain_price (some r) ⟨.ok n, .err, .ok gp, sd, rc⟩).sendAttempted =
        true ∧
    (update_blockchain_price (some r) ⟨.ok n, .timeout, .ok gp, sd, rc⟩) =
        ⟨false, none, false⟩ := by
  cases sd <;> cases rc <;> exact ⟨rfl, rfl, rfl⟩

/-- C7: when the transaction is broadcast successfully and the receipt wait
ends in the 150s wrapper timeout, `update_blockchain_price` returns success
(a soft success), and consequently the cycle makes exactly one attempt for
that target — no retry. -/
theorem c7_receipt_timeout_soft_success (n g gp h : ℕ) (r : ℤ) :
    (update_blockchain_price (some r) ⟨.ok n, .ok g, .ok gp, .ok h, .timeout⟩).success =
        true ∧
    ∀ (sym addr : String) (e2 : ChainEnv),
      attemptCount (process_target ⟨sym, addr, some r⟩
        ⟨.ok n, .ok g, .ok gp, .ok h, .timeout⟩ e2) = 1 := by
  refine ⟨rfl, fun sym addr e2 => ?_⟩
  simp [process_target, update_blockchain_price, attemptCount]

/-- C10: with a successful gas estimate `g`, a price-feed update transaction
is built with gas limit `⌊1.2 * g⌋` (`int(estimated_gas * 1.2)`, a 20%
buffer) while a liquidation transaction is built with gas limit
`⌊1.1 * g⌋` (`int(estimated_gas * 1.1)`, 10%) and the fixed 20 gwei gas
price; the natural-number divisions used in the embedding are exactly those
rational floors. -/
theorem c10_gas_margins (n g gp n' : ℕ) (r : ℤ) (sd rc : OpResult ℕ)
    (u t : String) (sd' rc' : Option ℕ) :
    (update_blockchain_price (some r) ⟨.ok n, .ok g, .ok gp, sd, rc⟩).tx =
        some ⟨n, 12 * g / 10, gp⟩ ∧
    (perform_liquidation u t ⟨some g, some n', sd', rc'⟩).tx =
        some ⟨n', 11 * g / 10, 20000000000⟩ ∧
    ((12 * g / 10 : ℕ) : ℤ) = ⌊(12 * (g : ℚ)) / 10⌋ ∧
    ((11 * g / 10 : ℕ) : ℤ) = ⌊(11 * (g : ℚ)) / 10⌋ := by
  refine ⟨?_, ?_, ?_, ?_⟩
  · cases sd <;> cases rc <;> rfl
  · cases sd' <;> cases rc' <;> rfl
  · rw [show (12 * (g : ℚ)) / 10 = ((12 * g : ℕ) : ℚ) / ((10 : ℕ) : ℚ) by push_cast; ring,
      Rat.floor_natCast_div_natCast]
    exact Int.natCast_div _ _
  · rw [show (11 * (g : ℚ)) / 10 = ((11 * g : ℕ) : ℚ) / ((10 : ℕ) : ℚ) by push_cast; ring,
      Rat.floor_natCast_div_natCast]
    exact Int.natCast_div _ _

/-- C9: a failed `Borrowed`-log scan yields an empty user list, a liquidation
cycle with a failed scan makes zero attempts (for every configuration,
collateral outcome and chain behaviour), and the periodic liquidation loop
still runs all of its cycles afterwards — the failure is not fatal. -/
theorem c9_scan_failure_empty :
    get_active_loan_users none = [] ∧
    (∀ (wallets : Option (Option String)) (colls : Option (List String))
        (envF : String → String → LiqEnv),
        liquidate_task wallets colls none envF = []) ∧
    (∀ (interval n : ℕ) (wcfg : ℕ → Option (Option String))
        (colls : ℕ → Option (List String)) (envs : ℕ → String → String → LiqEnv),
        runCount (start_periodic_liquidations interval wcfg colls
          (fun _ => none) envs n) = n) := by
  refine ⟨rfl, fun wallets colls envF => ?_, fun interval n wcfg colls envs => ?_⟩
  · rcases wallets with _ | w
    · rfl
    · rcases w with _ | k
      · rfl
      · rcases colls with _ | toks
        · rfl
        · simp [liquidate_task, get_active_loan_users]
  · induction n with
    | zero => rfl
    | succ m ih =>
      simp only [start_periodic_liquidations, runCount_append, ih]
      rfl

/-- C1 counterexample: with the BTC fetch failing and IDR/ETH/USDT succeeding
(all chain calls answering), the cycle performs 0 successful submissions —
not the claimed 3 — and the IDR target, whose fetch succeeded, is never
attempted. -/
theorem c1_counterexample :
    successCount (update_price_task (some (some "0xkey"))
        ⟨some 6250, none, some 244000000000⟩ (fun _ _ => allOk)) = 0 ∧
    attemptsFor "IDRX" (update_price_task (some (some "0xkey"))
        ⟨some 6250, none, some 244000000000⟩ (fun _ _ => allOk)) = 0 := by
  decide

/-- C1 amended: a failed BTC rate fetch is fatal to the whole cycle's
submission phase, not just to the BTC feed: whatever the other oracle
outcomes and the chain's behaviour, the cycle returns with an empty trace —
0 attempts and 0 submissions for every target (the loop itself survives). -/
theorem c1_btc_fetch_fatal (key : String) (idr eth : Option ℤ)
    (chain : ℕ → ℕ → ChainEnv) :
    update_price_task (some (some key)) ⟨idr, none, eth⟩ chain = [] := by
  show (if falsy idr || falsy none then ([] : List Event)
      else run_targets chain 0 (contract_addresses ⟨idr, none, eth⟩)) = []
  simp [falsy]

/-- C5: in a liquidation cycle whose scan returned `logs` (with `m` unique
borrowers) and whose contract reported the distinct collateral list `toks`
(of length `n`), the trace has exactly `m * n` attempts and each
(user, token) pair is attempted exactly once — for every per-pair chain
behaviour `envF`, so earlier failures never suppress later attempts. -/
theorem c5_liquidation_pairs (key : String) (toks logs : List String)
    (envF : String → String → LiqEnv) (u t : String)
    (hu : u ∈ logs.dedup) (ht : t ∈ toks) (hnd : toks.Nodup) :
    (liquidate_task (some (some key)) (some toks) (some logs) envF).length =
      logs.dedup.length * toks.length ∧
    liqAttemptsFor u t
      (liquidate_task (some (some key)) (some toks) (some logs) envF) = 1 := by
  constructor
  · show ((logs.dedup).flatMap fun u' => toks.map fun t' =>
      LiqEvent.attempt u' t' (perform_liquidation u' t' (envF u' t')).success).length = _
    rw [List.length_flatMap]
    simp only [Function.comp_def, List.length_map]
    exact sum_map_length_const _ _
  · show liqAttemptsFor u t ((logs.dedup).flatMap fun u' => toks.map fun t' =>
      LiqEvent.attempt u' t' (perform_liquidation u' t' (envF u' t')).success) = 1
    rw [liqAttemptsFor_flatMap u t logs.dedup toks
        (fun u' t' => (perform_liquidation u' t' (envF u' t')).success),
      List.count_eq_one_of_mem (logs.nodup_dedup) hu,
      List.count_eq_one_of_mem hnd ht]

/-- C5 witness: two unique users (from three borrow logs) and three collateral
tokens give exactly six attempts, and the pair ("a", "t2") is attempted
exactly once. -/
theorem c5_witness :
    (liquidate_task (some (some "k")) (some ["t1", "t2", "t3"])
        (some ["a", "b", "a"]) (fun _ _ => ⟨some 100, some 1, some 1, some 1⟩)).length =
      (["a", "b", "a"] : List String).dedup.length *
        (["t1", "t2", "t3"] : List String).length ∧
    liqAttemptsFor "a" "t2"
      (liquidate_task (some (some "k")) (some ["t1", "t2", "t3"])
        (some ["a", "b", "a"]) (fun _ _ => ⟨some 100, some 1, some 1, some 1⟩)) = 1 :=
  c5_liquidation_pairs "k" ["t1", "t2", "t3"] ["a", "b", "a"]
    (fun _ _ => ⟨some 100, some 1, some 1, some 1⟩) "a" "t2"
    (by decide) (by decide) (by decide)

/-- C2 counterexample: with the wallet-config load failing on every cycle, the
price-update job still runs: one loop iteration produces a cycle (which
logs the error) followed by the interval sleep, contradicting "the job is
never scheduled and no cycle of it ever runs". -/
theorem c2_counterexample :
    start_periodic_updates 3600 (fun _ => none) (fun _ => ⟨some 6250, some 1, some 1⟩)
        (fun _ _ _ => allOk) (fun _ => 0) 1 =
      [.cycle [.logError], .sleepInterval 3600] ∧
    runCount (start_periodic_updates 3600 (fun _ => none)
        (fun _ => ⟨some 6250, some 1, some 1⟩) (fun _ _ _ => allOk) (fun _ => 0) 1) = 1 := by
  decide

/-- C2 amended: the wallet config is loaded at the start of every cycle, not
once at process start; a load failure (file error or missing private key)
is caught inside the cycle, which ends with zero update attempts, and the
job remains scheduled — all `n` cycles still run. -/
theorem c2_config_failure_isolated (interval : ℕ) (rates : ℕ → RateEnv)
    (chain : ℕ → ℕ → ℕ → ChainEnv) (duration : ℕ → ℕ)
    (wallets : ℕ → Option (Option String))
    (h : ∀ i, wallets i = none ∨ wallets i = some none) (n : ℕ) :
    runCount (start_periodic_updates interval wallets rates chain duration n) = n ∧
    traceAttempts (start_periodic_updates interval wallets rates chain duration n) = 0 := by
  induction n with
  | zero => exact ⟨rfl, rfl⟩
  | succ m ih =>
    have hiter_run : runCount (loop_iteration interval wallets rates chain duration m) = 1 := by
      by_cases hd : 300 < duration m <;> simp [loop_iteration, hd, runCount, isRunEvent]
    have hiter_att :
        traceAttempts (loop_iteration interval wallets rates chain duration m) = 0 := by
      rcases h m with hm | hm <;> by_cases hd : 300 < duration m <;>
        simp [loop_iteration, hd, hm, traceAttempts, cycleAttempts,
          update_price_task, attemptCount]
    constructor
    · simp only [start_periodic_updates, runCount_append, ih.1, hiter_run]
    · simp only [start_periodic_updates, traceAttempts_append, ih.2, hiter_att]

/-- C2 witness: two iterations with an always-failing config load still run
two cycles, with zero update attempts overall. -/
theorem c2_witness :
    runCount (start_periodic_updates 3600 (fun _ => none)
        (fun _ => ⟨some 6250, some 1, some 1⟩) (fun _ _ _ => allOk) (fun _ => 0) 2) = 2 ∧
    traceAttempts (start_periodic_updates 3600 (fun _ => none)
        (fun _ => ⟨some 6250, some 1, some 1⟩) (fun _ _ _ => allOk) (fun _ => 0) 2) = 0 :=
  c2_config_failure_isolated 3600 (fun _ => ⟨some 6250, some 1, some 1⟩)
    (fun _ _ _ => allOk) (fun _ => 0) (fun _ => none) (fun _ => Or.inl rfl) 2

/-- C6 counterexample: in a cycle where the IDR fetch fails but the BTC rate
is available (non-falsy), the BTC target receives zero update attempts,
contradicting "for every target whose rate is available, the cycle makes
exactly one update attempt". -/
theorem c6_counterexample :
    falsy (some (250000000000 : ℤ)) = false ∧
    attemptsFor "BTC" (update_price_task (some (some "0xk2"))
        ⟨none, some 250000000000, some 200000000000⟩ (fun _ _ => allOk)) = 0 := by
  decide

/-- C6 amended: when the cycle reaches its submission phase (both the IDR and
BTC rates non-falsy), every one of the four targets gets exactly one update
attempt, plus exactly one retry iff that first attempt failed — at most two
attempts per target — regardless of the chain's behaviour on the other
targets (the ETH target is processed even if its own fetch failed); if IDR
or BTC is unavailable no target is attempted at all. -/
theorem c6_per_target_retry (key : String) (env : RateEnv) (chain : ℕ → ℕ → ChainEnv)
    (h1 : falsy env.idr = false) (h2 : falsy env.btc = false) :
    attemptsFor "IDRX" (update_price_task (some (some key)) env chain) =
      (if (update_blockchain_price env.idr (chain 0 0)).success then 1 else 2) ∧
    attemptsFor "BTC" (update_price_task (some (some key)) env chain) =
      (if (update_blockchain_price env.btc (chain 1 0)).success then 1 else 2) ∧
    attemptsFor "ETH" (update_price_task (some (some key)) env chain) =
      (if (update_blockchain_price env.eth (chain 2 0)).success then 1 else 2) ∧
    attemptsFor "USDT" (update_price_task (some (some key)) env chain) =
      (if (update_blockchain_price (some 100000000) (chain 3 0)).success then 1 else 2) := by
  have htrace : update_price_task (some (some key)) env chain =
      run_targets chain 0 (contract_addresses env) := by
    show (if falsy env.idr || falsy env.btc then ([] : List Event)
        else run_targets chain 0 (contract_addresses env)) = _
    rw [h1, h2]
    rfl
  rw [htrace]
  simp [contract_addresses, run_targets, attemptsFor_append, attemptsFor_process_target]

/-- C6 witness: a concrete cycle with all rates available. -/
theorem c6_witness :
    attemptsFor "IDRX" (update_price_task (some (some "0xk"))
        ⟨some 6250, some 250000000000, some 244000000000⟩ (fun _ _ => allOk)) =
      (if (update_blockchain_price (some 6250) allOk).success then 1 else 2) ∧
    attemptsFor "BTC" (update_price_task (some (some "0xk"))
        ⟨some 6250, some 250000000000, some 244000000000⟩ (fun _ _ => allOk)) =
      (if (update_blockchain_price (some 250000000000) allOk).success then 1 else 2) ∧
    attemptsFor "ETH" (update_price_task (some (some "0xk"))
        ⟨some 6250, some 250000000000, some 244000000000⟩ (fun _ _ => allOk)) =
      (if (update_blockchain_price (some 244000000000) allOk).success then 1 else 2) ∧
    attemptsFor "USDT" (update_price_task (some (some "0xk"))
        ⟨some 6250, some 250000000000, some 244000000000⟩ (fun _ _ => allOk)) =
      (if (update_blockchain_price (some 100000000) allOk).success then 1 else 2) :=
  c6_per_target_retry "0xk" ⟨some 6250, some 250000000000, some 244000000000⟩
    (fun _ _ => allOk) rfl rfl

theorem spu_length (interval : ℕ) (wallets : ℕ → Option (Option String))
    (rates : ℕ → RateEnv) (chain : ℕ → ℕ → ℕ → ChainEnv) (duration : ℕ → ℕ) (n : ℕ) :
    (start_periodic_updates interval wallets rates chain duration n).length = 2 * n := by
  induction n with
  | zero => rfl
  | succ m ih =>
    have hlen : (loop_iteration interval wallets rates chain duration m).length = 2 := rfl
    simp only [start_periodic_updates, List.length_append, ih, hlen]
    omega

theorem spu_runCount (interval : ℕ) (wallets : ℕ → Option (Option String))
    (rates : ℕ → RateEnv) (chain : ℕ → ℕ → ℕ → ChainEnv) (duration : ℕ → ℕ) (n : ℕ) :
    runCount (start_periodic_updates interval wallets rates chain duration n) = n := by
  induction n with
  | zero => rfl
  | succ m ih =>
    have hiter : runCount (loop_iteration interval wallets rates chain duration m) = 1 := by
      by_cases hd : 300 < duration m <;> simp [loop_iteration, hd, runCount, isRunEvent]
    simp only [start_periodic_updates, runCount_append, ih, hiter]

theorem spu_getElem (interval : ℕ) (wallets : ℕ → Option (Option String))
    (rates : ℕ → RateEnv) (chain : ℕ → ℕ → ℕ → ChainEnv) (duration : ℕ → ℕ)
    (n i : ℕ) (h : i < n) :
    (start_periodic_updates interval wallets rates chain duration n)[2 * i]? =
      some (if 300 < duration i then .cycleTimeout
            else .cycle (update_price_task (wallets i) (rates i) (chain i))) ∧
    (start_periodic_updates interval wallets rates chain duration n)[2 * i + 1]? =
      some (.sleepInterval interval) := by
  induction n with
  | zero => omega
  | succ m ih =>
    by_cases h' : i < m
    · have hl : 2 * i < (start_periodic_updates interval wallets rates chain duration m).length := by
        rw [spu_length]; omega
      have hl2 : 2 * i + 1 <
          (start_periodic_updates interval wallets rates chain duration m).length := by
        rw [spu_length]; omega
      constructor
      · simp only [start_periodic_updates]
        rw [List.getElem?_append, if_pos hl]
        exact (ih h').1
      · simp only [start_periodic_updates]
        rw [List.getElem?_append, if_pos hl2]
        exact (ih h').2
    · have him : i = m := by omega
      subst him
      constructor
      · simp only [start_periodic_updates]
        rw [List.getElem?_append, spu_length, if_neg (by omega)]
        rw [show 2 * i - 2 * i = 0 by omega]
        rfl
      · simp only [start_periodic_updates]
        rw [List.getElem?_append, spu_length, if_neg (by omega)]
        rw [show 2 * i + 1 - 2 * i = 1 by omega]
        rfl

/-- C8: the periodic price-update loop is total over every assignment of
per-cycle outcomes (no exception escapes it), runs exactly one cycle per
iteration — `n` iterations produce `n` cycle invocations at the even trace
positions — a cycle whose duration exceeds the 300-second wrapper timeout
is abandoned as a timeout (contributing no further events), and every cycle
invocation is followed by the `interval`-second sleep before the next one
starts. -/
theorem c8_periodic_schedule (interval : ℕ) (wallets : ℕ → Option (Option String))
    (rates : ℕ → RateEnv) (chain : ℕ → ℕ → ℕ → ChainEnv) (duration : ℕ → ℕ) (n : ℕ) :
    (start_periodic_updates interval wallets rates chain duration n).length = 2 * n ∧
    runCount (start_periodic_updates interval wallets rates chain duration n) = n ∧
    ∀ i, i < n →
      (300 < duration i →
        (start_periodic_updates interval wallets rates chain duration n)[2 * i]? =
          some .cycleTimeout) ∧
      (start_periodic_updates interval wallets rates chain duration n)[2 * i + 1]? =
        some (.sleepInterval interval) := by
  refine ⟨spu_length interval wallets rates chain duration n,
    spu_runCount interval wallets rates chain duration n,
    fun i hi => ⟨fun hd => ?_, (spu_getElem interval wallets rates chain duration n i hi).2⟩⟩
  rw [(spu_getElem interval wallets rates chain duration n i hi).1, if_pos hd]

/-- C8 witness: a single iteration whose cycle exceeds the 300s budget is
recorded as a timeout and is still followed by the interval sleep. -/
theorem c8_witness :
    (start_periodic_updates 60 (fun _ => some (some "w"))
        (fun _ => ⟨some 1, some 2, some 3⟩) (fun _ _ _ => allOk) (fun _ => 301) 1)[0]? =
      some LoopEvent.cycleTimeout ∧
    (start_periodic_updates 60 (fun _ => some (some "w"))
        (fun _ => ⟨some 1, some 2, some 3⟩) (fun _ _ _ => allOk) (fun _ => 301) 1)[1]? =
      some (LoopEvent.sleepInterval 60) :=
  ⟨((c8_periodic_schedule 60 (fun _ => some (some "w")) (fun _ => ⟨some 1, some 2, some 3⟩)
      (fun _ _ _ => allOk) (fun _ => 301) 1).2.2 0 (by decide)).1 (by decide),
   ((c8_periodic_schedule 60 (fun _ => some (some "w")) (fun _ => ⟨some 1, some 2, some 3⟩)
      (fun _ _ _ => allOk) (fun _ => 301) 1).2.2 0 (by decide)).2⟩

end LendingApi
